import Mathlib

/-!
Verification of the federation-metadata resolution core of the query
planner (source file src/query-planner/src/federation.rs).

The source file declares the data model and the dispatch machinery, but
every resolver body is the unimplemented macro, which panics.  We embed
the source as written, with panicking bodies modelled by
RustOutcome.panicked: the structural facts (the From coercions, the
single-field metadata struct, purity of the entry point) are proved, and
the resolution behaviour the specification describes is shown to be
absent from the program by evaluating the entry point at the
specification's own example inputs, where it panics instead of
resolving.
-/

namespace Federation

/-- Argument value of a directive, modelling graphql_parser::schema::Value.
The federation code never inspects argument values, so the variants a
resolver would not distinguish (variables, floats, lists, objects) are
collapsed into otherV. -/
inductive Value where
  | stringV (s : String)
  | intV (n : Int)
  | booleanV (b : Bool)
  | nullV
  | enumV (s : String)
  | otherV
  deriving DecidableEq

/-- Directive attached to a schema element, modelling
graphql_parser::schema::Directive: a name and named arguments. -/
structure Directive where
  name : String
  arguments : List (String × Value)
  deriving DecidableEq

/-- Field definition, modelling graphql_parser::schema::Field restricted
to what federation code could read (its attached directives); position,
description, field type and arguments are never inspected. -/
structure Field where
  name : String
  directives : List Directive
  deriving DecidableEq

/-- Top-level type definition, modelling
graphql_parser::schema::TypeDefinition restricted to what federation
code could read: whichever of the six kinds it is, only the name and the
attached directives matter here. -/
structure TypeDefinition where
  name : String
  directives : List Directive
  deriving DecidableEq

/-- Object type definition, modelling graphql_parser::schema::ObjectType
restricted to what federation code could read (name and attached
directives). -/
structure ObjectType where
  name : String
  directives : List Directive
  deriving DecidableEq

/-- Parsed schema document, modelling graphql_parser::schema::Document
as the container that owns the definitions the references point into. -/
structure Document where
  definitions : List TypeDefinition
  deriving DecidableEq

/-- The struct FederationMetadata of the source: its only field is
service_name (a borrowed string slice, modelled by String). -/
structure FederationMetadata where
  service_name : String
  deriving DecidableEq

/-- Outcome of running a Rust function that may panic: either a normal
return value or a panic (the unimplemented macro panics). -/
inductive RustOutcome (α : Type) where
  | ok (a : α)
  | panicked
  deriving DecidableEq

/-- Models FederationMetadata::is_value_type from the source: the body
is the unimplemented macro, so every call panics. -/
def FederationMetadata.is_value_type (_m : FederationMetadata) :
    RustOutcome Bool :=
  .panicked

/-- The tagged union SchemaRef of the source, over the three kinds of
schema elements that can carry federation directives. -/
inductive SchemaRef where
  | FieldDef (f : Field)
  | TypeDef (t : TypeDefinition)
  | ObjType (o : ObjectType)
  deriving DecidableEq

/-- Models the impl of From generated by the impl_from macro for Field:
wraps a borrowed field definition as the FieldDef variant. -/
def SchemaRef.fromField (f : Field) : SchemaRef :=
  SchemaRef.FieldDef f

/-- Models the impl of From generated by the impl_from macro for
TypeDefinition: wraps a borrowed type definition as the TypeDef variant. -/
def SchemaRef.fromTypeDefinition (t : TypeDefinition) : SchemaRef :=
  SchemaRef.TypeDef t

/-- Models the impl of From generated by the impl_from macro for
ObjectType: wraps a borrowed object type as the ObjType variant. -/
def SchemaRef.fromObjectType (o : ObjectType) : SchemaRef :=
  SchemaRef.ObjType o

/-- Models get_federation_metadata from the source: an exhaustive match
on the SchemaRef tag whose three arms are all the unimplemented macro,
so every call panics whatever the variant. -/
def get_federation_metadata : SchemaRef → RustOutcome (Option FederationMetadata)
  | .FieldDef _ => .panicked
  | .TypeDef _ => .panicked
  | .ObjType _ => .panicked

/-- Monomorphization of the generic entry point at T equal to a borrowed
Field: the caller passes the raw borrow and the Into coercion inserts
SchemaRef.fromField. -/
def get_federation_metadata_field (f : Field) :
    RustOutcome (Option FederationMetadata) :=
  get_federation_metadata (SchemaRef.fromField f)

/-- Monomorphization of the generic entry point at T equal to a borrowed
TypeDefinition. -/
def get_federation_metadata_typedef (t : TypeDefinition) :
    RustOutcome (Option FederationMetadata) :=
  get_federation_metadata (SchemaRef.fromTypeDefinition t)

/-- Monomorphization of the generic entry point at T equal to a borrowed
ObjectType. -/
def get_federation_metadata_objtype (o : ObjectType) :
    RustOutcome (Option FederationMetadata) :=
  get_federation_metadata (SchemaRef.fromObjectType o)

/-- State-passing form of get_federation_metadata: the schema document is
threaded explicitly to make mutation observable.  The source function
takes only shared borrows into the document and has no other state, so
the document component is returned unchanged. -/
def get_federation_metadata_st (d : Document) (r : SchemaRef) :
    RustOutcome (Option FederationMetadata) × Document :=
  (get_federation_metadata r, d)

/-- A field carrying only a directive outside the federation vocabulary,
an element that is not federated at all. -/
def exDeprecatedField : Field :=
  { name := "title"
    directives := [{ name := "deprecated", arguments := [] }] }

/-- An object type whose key directive has a non-string fields argument,
the malformed example of the spec. -/
def exMalformedKeyProduct : ObjectType :=
  { name := "Product"
    directives := [{ name := "key", arguments := [("fields", Value.intV 123)] }] }

/-- An object type declaring two independent keys, in this order. -/
def exTwoKeyProduct : ObjectType :=
  { name := "Product"
    directives :=
      [{ name := "key", arguments := [("fields", Value.stringV "id")] },
       { name := "key", arguments := [("fields", Value.stringV "sku region")] }] }

/-- An object type declaring the single key id. -/
def exKeyIdProduct : ObjectType :=
  { name := "Product"
    directives := [{ name := "key", arguments := [("fields", Value.stringV "id")] }] }

/-- A field requiring the weight and size fields. -/
def exRequiresField : Field :=
  { name := "shippingEstimate"
    directives := [{ name := "requires", arguments := [("fields", Value.stringV "weight size")] }] }

/-- A field marked as resolved by another service. -/
def exExternalField : Field :=
  { name := "weight"
    directives := [{ name := "external", arguments := [] }] }

/-- C1: evaluating the program at a reference with no federation
directives.  The claim says get_federation_metadata returns the absent
value None there; the code as written panics (unimplemented) instead of
returning, for this input as for any other. -/
theorem c1_code_panics_instead_of_absent :
    get_federation_metadata (SchemaRef.FieldDef exDeprecatedField) = .panicked ∧
      get_federation_metadata (SchemaRef.TypeDef ⟨"Money", []⟩) = .panicked ∧
      get_federation_metadata (SchemaRef.ObjType ⟨"Money", []⟩) = .panicked :=
  ⟨rfl, rfl, rfl⟩

/-- C2: evaluating the program at the spec's malformed example, a key
directive whose fields argument is the integer 123.  The claim says a
typed MalformedDirective outcome is surfaced; the code panics instead,
and its result type Option FederationMetadata has no malformed-directive
outcome at all. -/
theorem c2_code_panics_no_malformed_outcome :
    get_federation_metadata (SchemaRef.ObjType exMalformedKeyProduct) = .panicked :=
  rfl

/-- C4: evaluating the program at the object type declaring the keys id
and sku region.  The claim says key_fields collects both in order; the
code panics instead, and the struct FederationMetadata declares no
key_fields field that could hold them. -/
theorem c4_code_panics_no_key_fields :
    get_federation_metadata (SchemaRef.ObjType exTwoKeyProduct) = .panicked ∧
      get_federation_metadata_objtype exTwoKeyProduct = .panicked :=
  ⟨rfl, rfl⟩

/-- C5: evaluating the program at the object type keyed on id, and
is_value_type at a concrete metadata value.  The claim says the resolved
metadata has is_value_type false with key_fields id; the code panics on
the resolution call, and is_value_type itself panics on every value, so
no truth-condition for it holds. -/
theorem c5_code_panics_no_value_type_classification :
    get_federation_metadata (SchemaRef.ObjType exKeyIdProduct) = .panicked ∧
      (FederationMetadata.mk "products").is_value_type = .panicked :=
  ⟨rfl, rfl⟩

/-- C6: evaluating the program at the field requiring weight size and at
a field marked external.  The claim says requires_fields becomes the set
of weight and size and is_external becomes true; the code panics on both
calls, and the struct FederationMetadata carries no is_external,
requires_fields or provides_fields data. -/
theorem c6_code_panics_no_field_metadata :
    get_federation_metadata (SchemaRef.FieldDef exRequiresField) = .panicked ∧
      get_federation_metadata (SchemaRef.FieldDef exExternalField) = .panicked :=
  ⟨rfl, rfl⟩

/-- C3: in the source as written, get_federation_metadata hits the
unimplemented macro in every match arm, so it panics for every schema
reference and never returns, and FederationMetadata::is_value_type
panics for every metadata value. -/
theorem c3_source_resolver_panics :
    (∀ r : SchemaRef, get_federation_metadata r = .panicked) ∧
      (∀ m : FederationMetadata, m.is_value_type = .panicked) :=
  ⟨fun r => by cases r <;> rfl, fun _ => rfl⟩

/-- C7: the From coercions wrap each borrowed element kind in its
matching SchemaRef variant, and calling get_federation_metadata on the
raw borrow equals calling it on the explicitly wrapped SchemaRef, for
all three kinds. -/
theorem c7_from_impls_and_uniform_dispatch (f : Field) (t : TypeDefinition)
    (o : ObjectType) :
    SchemaRef.fromField f = SchemaRef.FieldDef f ∧
      SchemaRef.fromTypeDefinition t = SchemaRef.TypeDef t ∧
      SchemaRef.fromObjectType o = SchemaRef.ObjType o ∧
      get_federation_metadata_field f = get_federation_metadata (SchemaRef.FieldDef f) ∧
      get_federation_metadata_typedef t = get_federation_metadata (SchemaRef.TypeDef t) ∧
      get_federation_metadata_objtype o = get_federation_metadata (SchemaRef.ObjType o) :=
  ⟨rfl, rfl, rfl, rfl, rfl, rfl⟩

/-- C8: with the schema document threaded explicitly, a resolution call
leaves the document unchanged, and a second call on the same reference
with no intervening mutation yields the same result as the first. -/
theorem c8_resolution_pure_and_deterministic (d : Document) (r : SchemaRef) :
    (get_federation_metadata_st d r).2 = d ∧
      (get_federation_metadata_st (get_federation_metadata_st d r).2 r).1 =
        (get_federation_metadata_st d r).1 :=
  ⟨rfl, rfl⟩

/-- C10: a FederationMetadata value of the source is fully determined by
its service_name field, since the struct declares no other field. -/
theorem c10_metadata_determined_by_service_name (m₁ m₂ : FederationMetadata)
    (h : m₁.service_name = m₂.service_name) : m₁ = m₂ := by
  cases m₁
  cases m₂
  cases h
  rfl

/-- Witness for C10 at two records built from the same service name. -/
theorem c10_metadata_determined_by_service_name_witness :
    (FederationMetadata.mk "accounts").service_name =
        (FederationMetadata.mk "accounts").service_name ∧
      FederationMetadata.mk "accounts" = FederationMetadata.mk "accounts" :=
  ⟨rfl, c10_metadata_determined_by_service_name _ _ rfl⟩

end Federation
